import Mathlib

/-!
Shallow embedding of the wallet-signature authentication core of
Blockchain-Secure-Docs: the user model (`server/src/models/User.js`),
the challenge and verify routes (`server/src/routes/auth.js`), the
request gate (`server/src/middleware/auth.js`) and the global error
handler (`server/src/middleware/errorHandler.js`).

External library behaviour (ethers.getAddress, ethers.verifyMessage) is
a parameter `EthLib`; nondeterministic inputs (crypto.randomBytes nonce
generation, Date.now) are explicit arguments.  Request bodies and
headers carry `Option String`: `none` is an absent JS field, and the
empty string is falsy exactly as in JS.
-/

set_option maxRecDepth 40000

namespace SecureDocs

/-- A `User` document (models/User.js): checksummed address, current
challenge nonce, last accepted signature (null when never set) and the
`lastSeen` timestamp (null when never authenticated). -/
structure User where
  address : String
  nonce : String
  sessionSignature : Option String
  lastSeen : Option Nat
deriving Repr, DecidableEq

/-- The persistent store: the collection of user documents. -/
abbrev Store := List User

/-- `User.findOne({ address })`: first document whose address equals the
query address exactly. -/
def findOne (s : Store) (a : String) : Option User :=
  s.find? (fun u => u.address == a)

/-- `user.save()` on an existing document: replace the document with the
same address (the first such, matching `findOne`); insert when absent. -/
def saveUser : Store → User → Store
  | [], u => [u]
  | v :: rest, u =>
    if v.address == u.address then u :: rest else v :: saveUser rest u

/-- `User.create({ address })`: a fresh document with the schema
defaults — a freshly generated nonce, null sessionSignature, null
lastSeen. -/
def newUser (address fresh : String) : User :=
  { address := address, nonce := fresh, sessionSignature := none, lastSeen := none }

/-- `User.create` appends the new document to the collection. -/
def createUser (s : Store) (u : User) : Store := s ++ [u]

/-- `User.findOrCreate(address)` (models/User.js): return the existing
document, or create one with defaults.  `fresh` is the random nonce the
schema default `generateNonce` would produce. -/
def findOrCreate (s : Store) (address fresh : String) : User × Store :=
  match findOne s address with
  | some u => (u, s)
  | none =>
    let u := newUser address fresh
    (u, createUser s u)

/-- `user.rotateNonce(newSignature)` (models/User.js): set a fresh
nonce, set lastSeen to now, and overwrite sessionSignature only when an
argument was passed (`newSignature !== undefined`). -/
def rotateNonce (u : User) (newSignature : Option String) (fresh : String) (now : Nat) : User :=
  { u with
    nonce := fresh
    lastSeen := some now
    sessionSignature :=
      match newSignature with
      | some sg => some sg
      | none => u.sessionSignature }

/-- The ethers.js calls the routes make.  `getAddress` validates and
checksums an address (`none` embeds a thrown exception); `verifyMessage`
recovers the signer of a message from a signature (`none` embeds a
thrown exception on an unparseable signature). -/
structure EthLib where
  getAddress : String → Option String
  verifyMessage : String → String → Option String

/-- JS `String.prototype.toLowerCase()` as applied to addresses:
lower-case every character.  (Defined by structural recursion over the
characters so that it evaluates inside the kernel.) -/
def lowerString (s : String) : String :=
  String.mk (s.data.map Char.toLower)

/-- `buildChallenge(address, nonce)` (middleware/auth.js): the exact
string the wallet signs. -/
def buildChallenge (address nonce : String) : String :=
  "Welcome to Blockchain Secure Docs!\n\nSign this message to verify your wallet and authenticate.\n\nThis request will not trigger any blockchain transaction or cost any gas.\n\nWallet: " ++ address ++ "\nNonce: " ++ nonce

/-- Outcome of POST /api/auth/nonce. -/
inductive NonceResult
  | missingAddress
  | invalidAddress
  | ok (address nonce message : String)
deriving Repr, DecidableEq

/-- POST /api/auth/nonce (routes/auth.js): validate and checksum the
address, upsert the user, and return the EXISTING nonce together with
the challenge message.  `fresh` is the nonce used if a document must be
created. -/
def nonceRoute (lib : EthLib) (s : Store) (rawAddress : Option String) (fresh : String) :
    NonceResult × Store :=
  match rawAddress with
  | none => (NonceResult.missingAddress, s)
  | some raw =>
    if raw == "" then (NonceResult.missingAddress, s)
    else
      match lib.getAddress raw with
      | none => (NonceResult.invalidAddress, s)
      | some address =>
        let us := findOrCreate s address fresh
        (NonceResult.ok address us.1.nonce (buildChallenge address us.1.nonce), us.2)

/-- Outcome of POST /api/auth/verify. -/
inductive VerifyResult
  | missingFields
  | invalidAddress
  | notRegistered
  | malformedSignature
  | unauthorized
  | ok (address : String) (authenticatedAt : Option Nat)
deriving Repr, DecidableEq

/-- The error string each verify outcome carries (routes/auth.js). -/
def verifyError : VerifyResult → String
  | VerifyResult.missingFields => "address and signature are required."
  | VerifyResult.invalidAddress => "Invalid Ethereum address."
  | VerifyResult.notRegistered => "Address not registered. Call POST /api/auth/nonce first."
  | VerifyResult.malformedSignature => "Malformed signature."
  | VerifyResult.unauthorized => "Signature does not match the provided address."
  | VerifyResult.ok _ _ => ""

/-- POST /api/auth/verify (routes/auth.js): checksum the address, load
the user, rebuild the challenge from the CURRENT nonce, recover the
signer, compare case-insensitively, and on success rotate the nonce
while storing the signature as the session signature.  `fresh` is the
nonce `generateNonce` produces for the rotation and `now` the current
time. -/
def verifyRoute (lib : EthLib) (s : Store) (rawAddress signature : Option String)
    (fresh : String) (now : Nat) : VerifyResult × Store :=
  match rawAddress, signature with
  | some raw, some sig =>
    if raw == "" || sig == "" then (VerifyResult.missingFields, s)
    else
      match lib.getAddress raw with
      | none => (VerifyResult.invalidAddress, s)
      | some address =>
        match findOne s address with
        | none => (VerifyResult.notRegistered, s)
        | some user =>
          let challenge := buildChallenge address user.nonce
          match lib.verifyMessage challenge sig with
          | none => (VerifyResult.malformedSignature, s)
          | some recovered =>
            if lowerString recovered != lowerString address then (VerifyResult.unauthorized, s)
            else
              let rotated := rotateNonce user (some sig) fresh now
              (VerifyResult.ok address rotated.lastSeen, saveUser s rotated)
  | _, _ => (VerifyResult.missingFields, s)

/-- Outcome of the requireAuth middleware (middleware/auth.js).
`authorized` embeds calling `next()` with `req.walletAddress` set. -/
inductive AuthResult
  | missingHeaders
  | invalidAddress
  | notRegistered
  | authorized (address : String)
  | unauthorized
deriving Repr, DecidableEq

/-- The error string each requireAuth denial carries
(middleware/auth.js). -/
def authMessage : AuthResult → String
  | AuthResult.missingHeaders => "Missing auth headers (x-wallet-address, x-wallet-signature)."
  | AuthResult.invalidAddress => "Invalid wallet address."
  | AuthResult.notRegistered => "Address not registered. Call POST /api/auth/nonce first."
  | AuthResult.authorized _ => ""
  | AuthResult.unauthorized => "Signature verification failed. Please reconnect your wallet."

/-- The primary check of requireAuth:
`user.sessionSignature && user.sessionSignature === signature`
(the empty string is falsy, `null` is falsy). -/
def primaryCheck (user : User) (signature : String) : Bool :=
  match user.sessionSignature with
  | some s => s != "" && s == signature
  | none => false

/-- The fallback check of requireAuth: recover the signer of the
challenge built from the CURRENT nonce and compare case-insensitively;
a recovery exception falls through to false. -/
def fallbackCheck (lib : EthLib) (user : User) (address signature : String) : Bool :=
  match lib.verifyMessage (buildChallenge address user.nonce) signature with
  | some recovered => lowerString recovered == lowerString address
  | none => false

/-- requireAuth (middleware/auth.js): read the two headers, checksum the
address, load the user, then primary exact-match check followed by the
nonce fallback.  It performs no store write. -/
def requireAuth (lib : EthLib) (s : Store) (rawAddress signature : Option String) : AuthResult :=
  match rawAddress, signature with
  | some raw, some sig =>
    if raw == "" || sig == "" then AuthResult.missingHeaders
    else
      match lib.getAddress raw with
      | none => AuthResult.invalidAddress
      | some address =>
        match findOne s address with
        | none => AuthResult.notRegistered
        | some user =>
          if primaryCheck user sig then AuthResult.authorized address
          else if fallbackCheck lib user address sig then AuthResult.authorized address
          else AuthResult.unauthorized
  | _, _ => AuthResult.missingHeaders

/-- Whether requireAuth authorizes specifically through the primary
exact-match branch (the structure of requireAuth up to that branch). -/
def authorizedViaPrimary (lib : EthLib) (s : Store) (rawAddress signature : Option String) :
    Bool :=
  match rawAddress, signature with
  | some raw, some sig =>
    if raw == "" || sig == "" then false
    else
      match lib.getAddress raw with
      | none => false
      | some address =>
        match findOne s address with
        | none => false
        | some user => primaryCheck user sig
  | _, _ => false

/-- One inbound request touching the auth core.  Each carries the
nondeterministic inputs its handler consumes. -/
inductive Event
  | nonceReq (rawAddress : Option String) (fresh : String)
  | verifyReq (rawAddress signature : Option String) (fresh : String) (now : Nat)
  | authReq (rawAddress signature : Option String)
deriving Repr, DecidableEq

/-- The store after handling one request.  requireAuth reads only. -/
def stepStore (lib : EthLib) (s : Store) : Event → Store
  | Event.nonceReq ra f => (nonceRoute lib s ra f).2
  | Event.verifyReq ra sg f n => (verifyRoute lib s ra sg f n).2
  | Event.authReq _ _ => s

/-- The store after handling a sequence of requests. -/
def runStore (lib : EthLib) (s : Store) : List Event → Store
  | [] => s
  | e :: es => runStore lib (stepStore lib s e) es

/-- The event is a verification request that succeeds for address `a`
in store `s` (the only kind of request that rotates `a`). -/
def verifiesFor (lib : EthLib) (s : Store) (e : Event) (a : String) : Bool :=
  match e with
  | Event.verifyReq ra sg f n =>
    match (verifyRoute lib s ra sg f n).1 with
    | VerifyResult.ok addr _ => addr == a
    | _ => false
  | _ => false

/-- No request in the sequence is a successful verification for `a`
(checked along the evolving store). -/
def noVerifyFor (lib : EthLib) (s : Store) (a : String) : List Event → Bool
  | [] => true
  | e :: es => !(verifiesFor lib s e a) && noVerifyFor lib (stepStore lib s e) a es

/-- A JS error object as the global error handler inspects it
(middleware/errorHandler.js): optional status fields, optional message,
mongoose discriminator fields and the stack trace. -/
structure JsError where
  status : Option Nat
  statusCode : Option Nat
  message : Option String
  name : Option String
  code : Option Nat
  path : String
  keyValue : List String
  validationMessages : List String
  stack : String
deriving Repr, DecidableEq

/-- The JSON body the error handler sends. -/
structure ErrorBody where
  success : Bool
  error : String
  stack : Option String
deriving Repr, DecidableEq

/-- errorHandler (middleware/errorHandler.js): default status 500 and
message from the error, rewrite for mongoose validation, cast and
duplicate-key errors, and attach the stack only in development builds
on 5xx. -/
def errorHandler (env : String) (err : JsError) : Nat × ErrorBody :=
  let status0 := err.status.getD (err.statusCode.getD 500)
  let message0 := err.message.getD "Internal server error."
  let sm1 : Nat × String :=
    if err.name == some "ValidationError" then
      (400, "Validation failed: " ++ String.intercalate ", " err.validationMessages)
    else (status0, message0)
  let sm2 : Nat × String :=
    if err.name == some "CastError" then
      (400, "Invalid value for field \"" ++ err.path ++ "\".")
    else sm1
  let sm3 : Nat × String :=
    if err.code == some 11000 then
      (409, "Duplicate value for " ++ err.keyValue.headD "field" ++ ".")
    else sm2
  (sm3.1,
    { success := false
      error := sm3.2
      stack := if env == "development" && decide (500 ≤ sm3.1) then some err.stack else none })

/-! ### Concrete instances for witnesses -/

/-- A small concrete model of the ethers calls: one address with two
accepted spellings, signatures over the challenges for nonces n1 and
n2, and one signature recovering to a different address. -/
def demoLib : EthLib where
  getAddress := fun r =>
    if r = "0xAbC1" ∨ r = "0xabc1" then some "0xAbC1" else none
  verifyMessage := fun msg sg =>
    if msg = buildChallenge "0xAbC1" "n1" ∧ sg = "sig1" then some "0xAbC1"
    else if msg = buildChallenge "0xAbC1" "n2" ∧ sg = "sig2" then some "0xAbC1"
    else if msg = buildChallenge "0xAbC1" "n1" ∧ sg = "sigX" then some "0xFFFF"
    else none

/-- A registered user that has not yet authenticated. -/
def demoUser : User :=
  { address := "0xAbC1", nonce := "n1", sessionSignature := none, lastSeen := none }

/-- A store holding just `demoUser`. -/
def demoStore : Store := [demoUser]

/-- `demoUser` after a successful verification with sig1 at time 5. -/
def demoRotatedUser : User :=
  { address := "0xAbC1", nonce := "n2", sessionSignature := some "sig1", lastSeen := some 5 }

/-- The store after that verification. -/
def demoRotatedStore : Store := [demoRotatedUser]

/-- A raw data-layer failure carrying its own message and stack. -/
def demoError : JsError :=
  { status := some 500, statusCode := none
    message := some "connect ECONNREFUSED 127.0.0.1:27017"
    name := none, code := none, path := "", keyValue := [], validationMessages := []
    stack := "Error: connect ECONNREFUSED\n    at TCPConnectWrap.afterConnect" }

/-- A client-side 4xx error. -/
def demoError400 : JsError :=
  { status := some 400, statusCode := none
    message := some "address is required."
    name := none, code := none, path := "", keyValue := [], validationMessages := []
    stack := "Error: at handler" }

/-! ### Store lemmas -/

theorem address_of_findOne {s : Store} {a : String} {u : User}
    (h : findOne s a = some u) : u.address = a := by
  have := List.find?_some h
  simpa using this

theorem findOne_nil (a : String) : findOne [] a = none := rfl

theorem findOne_cons (v : User) (rest : Store) (a : String) :
    findOne (v :: rest) a = if v.address = a then some v else findOne rest a := by
  by_cases h : v.address = a
  · simp [findOne, List.find?_cons_of_pos, h]
  · simp [findOne, List.find?_cons_of_neg, h]

theorem findOne_saveUser_ne {s : Store} {u : User} {a : String}
    (h : u.address ≠ a) : findOne (saveUser s u) a = findOne s a := by
  induction s with
  | nil => simp [saveUser, findOne_nil, findOne_cons, h]
  | cons v rest ih =>
    by_cases hv : v.address = u.address
    · simp [saveUser, hv, findOne_cons, h, hv.trans]
    · simp only [saveUser, beq_iff_eq, hv, if_false]
      rw [findOne_cons, findOne_cons, ih]

theorem findOne_saveUser_self {s : Store} {u v : User} {a : String}
    (hfind : findOne s a = some v) (hu : u.address = a) :
    findOne (saveUser s u) a = some u := by
  induction s with
  | nil => simp [findOne_nil] at hfind
  | cons w rest ih =>
    by_cases hw : w.address = a
    · have : w.address = u.address := hw.trans hu.symm
      simp [saveUser, this, findOne_cons, hu]
    · have hwu : w.address ≠ u.address := by rw [hu]; exact hw
      have hfind' : findOne rest a = some v := by
        simpa [findOne_cons, hw] using hfind
      simp only [saveUser, beq_iff_eq, hwu, if_false]
      rw [findOne_cons, if_neg hw]
      exact ih hfind'

theorem findOne_createUser_found {s : Store} {u v : User} {a : String}
    (h : findOne s a = some v) : findOne (createUser s u) a = some v := by
  induction s with
  | nil => simp [findOne_nil] at h
  | cons w rest ih =>
    by_cases hw : w.address = a
    · have : v = w := by simpa [findOne_cons, hw] using h.symm
      simp [createUser, findOne_cons, hw, this]
    · have h' : findOne rest a = some v := by
        simpa [findOne_cons, hw] using h
      have := ih h'
      simpa [createUser, findOne_cons, hw] using this

theorem findOne_createUser_self {s : Store} {u : User} {a : String}
    (h : findOne s a = none) (hu : u.address = a) :
    findOne (createUser s u) a = some u := by
  induction s with
  | nil => simp [createUser, findOne_cons, findOne_nil, hu]
  | cons w rest ih =>
    have hw : w.address ≠ a := by
      intro hwa
      simp [findOne_cons, hwa] at h
    have h' : findOne rest a = none := by
      simpa [findOne_cons, hw] using h
    have := ih h'
    simpa [createUser, findOne_cons, hw] using this

/-! ### Route shape lemmas -/

theorem nonceRoute_existing {lib : EthLib} {s : Store} {raw a : String} {u : User}
    (hraw : raw ≠ "") (hga : lib.getAddress raw = some a) (hu : findOne s a = some u)
    (f : String) :
    nonceRoute lib s (some raw) f =
      (NonceResult.ok a u.nonce (buildChallenge a u.nonce), s) := by
  simp [nonceRoute, hraw, hga, findOrCreate, hu]

theorem nonceRoute_store (lib : EthLib) (s : Store) (ra : Option String) (f : String) :
    (nonceRoute lib s ra f).2 = s ∨
    ∃ a, findOne s a = none ∧ (nonceRoute lib s ra f).2 = createUser s (newUser a f) := by
  cases ra with
  | none => exact Or.inl rfl
  | some raw =>
    by_cases hraw : raw = ""
    · left; simp [nonceRoute, hraw]
    · cases hga : lib.getAddress raw with
      | none => left; simp [nonceRoute, hraw, hga]
      | some a =>
        cases hfo : findOne s a with
        | some u => left; simp [nonceRoute, hraw, hga, findOrCreate, hfo]
        | none =>
          right
          exact ⟨a, hfo, by simp [nonceRoute, hraw, hga, findOrCreate, hfo]⟩

theorem verifyRoute_ok_inv {lib : EthLib} {s : Store} {ra sg : Option String}
    {f : String} {n : Nat} {a : String} {t : Option Nat} {s' : Store}
    (h : verifyRoute lib s ra sg f n = (VerifyResult.ok a t, s')) :
    ∃ raw sig user recovered,
      ra = some raw ∧ sg = some sig ∧ raw ≠ "" ∧ sig ≠ "" ∧
      lib.getAddress raw = some a ∧ findOne s a = some user ∧
      lib.verifyMessage (buildChallenge a user.nonce) sig = some recovered ∧
      lowerString recovered = lowerString a ∧
      t = some n ∧ s' = saveUser s (rotateNonce user (some sig) f n) := by
  cases ra with
  | none => simp [verifyRoute] at h
  | some raw =>
    cases sg with
    | none => simp [verifyRoute] at h
    | some sig =>
      simp only [verifyRoute] at h
      split at h
      · simp at h
      next hcond =>
        have hraw : raw ≠ "" := by
          intro he; exact hcond (by simp [he])
        have hsig : sig ≠ "" := by
          intro he; exact hcond (by simp [he])
        split at h
        · simp at h
        next addr hga =>
          split at h
          · simp at h
          next user hfo =>
            split at h
            · simp at h
            next recovered hvm =>
              split at h
              · simp at h
              next hlow =>
                have hlow' : lowerString recovered = lowerString addr := by
                  simpa using hlow
                have h1 : VerifyResult.ok addr (rotateNonce user (some sig) f n).lastSeen
                    = VerifyResult.ok a t := congrArg Prod.fst h
                have h2 : saveUser s (rotateNonce user (some sig) f n) = s' :=
                  congrArg Prod.snd h
                have haddr : addr = a := by
                  cases h1; rfl
                have ht : t = some n := by
                  cases h1; rfl
                subst haddr
                exact ⟨raw, sig, user, recovered, rfl, rfl, hraw, hsig, hga, hfo,
                  hvm, hlow', ht, h2.symm⟩

theorem verifyRoute_shape (lib : EthLib) (s : Store) (ra sg : Option String)
    (f : String) (n : Nat) :
    (verifyRoute lib s ra sg f n).2 = s ∨
    ∃ a t, (verifyRoute lib s ra sg f n).1 = VerifyResult.ok a t ∧
      ∃ sig user, sg = some sig ∧ findOne s a = some user ∧
        (verifyRoute lib s ra sg f n).2 = saveUser s (rotateNonce user (some sig) f n) := by
  rcases hres : verifyRoute lib s ra sg f n with ⟨r, s2⟩
  cases r with
  | ok a t =>
    right
    obtain ⟨raw, sig, user, recovered, _, hsg, _, _, _, hfo, _, _, _, hs'⟩ :=
      verifyRoute_ok_inv hres
    exact ⟨a, t, rfl, sig, user, hsg, hfo, by simpa using hs'⟩
  | missingFields =>
    left
    cases ra with
    | none => cases hres; rfl
    | some raw =>
      cases sg with
      | none => cases hres; rfl
      | some sig =>
        simp only [verifyRoute] at hres
        split at hres
        · cases hres; rfl
        · split at hres
          · cases hres
          · split at hres
            · cases hres
            · split at hres
              · cases hres
              · split at hres
                · cases hres
                · simp at hres
  | invalidAddress =>
    left
    cases ra with
    | none => simp [verifyRoute] at hres
    | some raw =>
      cases sg with
      | none => simp [verifyRoute] at hres
      | some sig =>
        simp only [verifyRoute] at hres
        split at hres
        · simp at hres
        · split at hres
          · cases hres; rfl
          · split at hres
            · simp at hres
            · split at hres
              · simp at hres
              · split at hres
                · simp at hres
                · simp at hres
  | notRegistered =>
    left
    cases ra with
    | none => simp [verifyRoute] at hres
    | some raw =>
      cases sg with
      | none => simp [verifyRoute] at hres
      | some sig =>
        simp only [verifyRoute] at hres
        split at hres
        · simp at hres
        · split at hres
          · simp at hres
          · split at hres
            · cases hres; rfl
            · split at hres
              · simp at hres
              · split at hres
                · simp at hres
                · simp at hres
  | malformedSignature =>
    left
    cases ra with
    | none => simp [verifyRoute] at hres
    | some raw =>
      cases sg with
      | none => simp [verifyRoute] at hres
      | some sig =>
        simp only [verifyRoute] at hres
        split at hres
        · simp at hres
        · split at hres
          · simp at hres
          · split at hres
            · simp at hres
            · split at hres
              · cases hres; rfl
              · split at hres
                · simp at hres
                · simp at hres
  | unauthorized =>
    left
    cases ra with
    | none => simp [verifyRoute] at hres
    | some raw =>
      cases sg with
      | none => simp [verifyRoute] at hres
      | some sig =>
        simp only [verifyRoute] at hres
        split at hres
        · simp at hres
        · split at hres
          · simp at hres
          · split at hres
            · simp at hres
            · split at hres
              · simp at hres
              · split at hres
                · cases hres; rfl
                · simp at hres

/-! ### Trace preservation -/

theorem stepStore_preserves {lib : EthLib} {s : Store} {a : String} {u : User} {e : Event}
    (hu : findOne s a = some u) (hv : verifiesFor lib s e a = false) :
    findOne (stepStore lib s e) a = some u := by
  cases e with
  | authReq ra sg => exact hu
  | nonceReq ra f =>
    rcases nonceRoute_store lib s ra f with h | ⟨b, _, h⟩
    · rw [stepStore, h]; exact hu
    · rw [stepStore, h]; exact findOne_createUser_found hu
  | verifyReq ra sg f n =>
    rcases verifyRoute_shape lib s ra sg f n with h | ⟨b, t, hres, sig, user, _, hfo, h2⟩
    · rw [stepStore, h]; exact hu
    · have hba : b ≠ a := by
        intro hba
        subst hba
        rw [verifiesFor, hres] at hv
        simp at hv
      rw [stepStore, h2, findOne_saveUser_ne]
      · exact hu
      · have huser : user.address = b := address_of_findOne hfo
        simpa [rotateNonce, huser] using hba

theorem runStore_preserves {lib : EthLib} {a : String} {u : User} :
    ∀ {evs : List Event} {s : Store}, findOne s a = some u →
      noVerifyFor lib s a evs = true → findOne (runStore lib s evs) a = some u := by
  intro evs
  induction evs with
  | nil => intro s hu _; exact hu
  | cons e es ih =>
    intro s hu hnv
    rw [noVerifyFor, Bool.and_eq_true, Bool.not_eq_true'] at hnv
    exact ih (stepStore_preserves hu hnv.1) hnv.2

/-! ### Request gate lemmas -/

theorem requireAuth_of_primary {lib : EthLib} {s : Store} {raw a sig : String} {u : User}
    (hraw : raw ≠ "") (hsig : sig ≠ "") (hga : lib.getAddress raw = some a)
    (hu : findOne s a = some u) (hp : primaryCheck u sig = true) :
    requireAuth lib s (some raw) (some sig) = AuthResult.authorized a ∧
    authorizedViaPrimary lib s (some raw) (some sig) = true := by
  constructor
  · simp [requireAuth, hraw, hsig, hga, hu, hp]
  · simp [authorizedViaPrimary, hraw, hsig, hga, hu, hp]

theorem requireAuth_of_fallback {lib : EthLib} {s : Store} {raw a sig : String} {u : User}
    (hraw : raw ≠ "") (hsig : sig ≠ "") (hga : lib.getAddress raw = some a)
    (hu : findOne s a = some u) (hf : fallbackCheck lib u a sig = true) :
    requireAuth lib s (some raw) (some sig) = AuthResult.authorized a := by
  cases hp : primaryCheck u sig with
  | true => simp [requireAuth, hraw, hsig, hga, hu, hp]
  | false => simp [requireAuth, hraw, hsig, hga, hu, hp, hf]

theorem authorizedViaPrimary_false {lib : EthLib} {s : Store} {raw a sig : String} {u : User}
    (hga : lib.getAddress raw = some a)
    (hu : findOne s a = some u) (hp : primaryCheck u sig = false) :
    authorizedViaPrimary lib s (some raw) (some sig) = false := by
  by_cases hraw : raw = ""
  · simp [authorizedViaPrimary, hraw]
  · by_cases hsig : sig = ""
    · simp [authorizedViaPrimary, hsig]
    · simp [authorizedViaPrimary, hraw, hsig, hga, hu, hp]

theorem primaryCheck_of_session {u : User} {S : String}
    (hs : u.sessionSignature = some S) (hS : S ≠ "") : primaryCheck u S = true := by
  simp [primaryCheck, hs, hS]

theorem primaryCheck_ne {u : User} {S S' : String}
    (hs : u.sessionSignature = some S') (hne : S' ≠ S) : primaryCheck u S = false := by
  simp [primaryCheck, hs, hne]

theorem nonceRoute_ok_inv {lib : EthLib} {s : Store} {ra : Option String} {f a n m : String}
    {s' : Store}
    (h : nonceRoute lib s ra f = (NonceResult.ok a n m, s')) :
    ∃ raw, ra = some raw ∧ raw ≠ "" ∧ lib.getAddress raw = some a ∧
      m = buildChallenge a n ∧
      ((∃ u, findOne s a = some u ∧ n = u.nonce ∧ s' = s) ∨
        (findOne s a = none ∧ n = f ∧ s' = createUser s (newUser a f))) := by
  cases ra with
  | none => simp [nonceRoute] at h
  | some raw =>
    simp only [nonceRoute] at h
    split at h
    · simp at h
    next hraw =>
      split at h
      · simp at h
      next addr hga =>
        have h1 := congrArg Prod.fst h
        have h2 := congrArg Prod.snd h
        simp only at h1 h2
        obtain ⟨haddr, hn, hm⟩ : addr = a ∧ (findOrCreate s addr f).1.nonce = n ∧
            buildChallenge addr (findOrCreate s addr f).1.nonce = m := by
          cases h1
          exact ⟨rfl, rfl, rfl⟩
        subst haddr
        refine ⟨raw, rfl, ?_, hga, ?_, ?_⟩
        · intro he
          exact hraw (by simp [he])
        · rw [← hm, hn]
        · cases hfo : findOne s addr with
          | some u =>
            left
            rw [findOrCreate, hfo] at hn h2
            exact ⟨u, rfl, hn.symm, h2.symm⟩
          | none =>
            right
            rw [findOrCreate, hfo] at hn h2
            exact ⟨rfl, hn.symm, h2.symm⟩

/-! ### Claims -/

/-- C10: calling the rotate operation with no new-signature argument
(`newSignature` undefined) rotates the nonce and updates the timestamp
but leaves the stored sessionSignature unchanged — it is not cleared,
despite the schema comment on sessionSignature. -/
theorem claim_C10_rotate_keeps_session (u : User) (fresh : String) (now : Nat) :
    (rotateNonce u none fresh now).sessionSignature = u.sessionSignature ∧
    (rotateNonce u none fresh now).nonce = fresh ∧
    (rotateNonce u none fresh now).lastSeen = some now ∧
    (rotateNonce u none fresh now).address = u.address :=
  ⟨rfl, rfl, rfl, rfl⟩

/-- C3: a successful verification for address `a` with signature `sig`
persists a record whose sessionSignature is `sig`, whose lastSeen is the
current time, and whose nonce is the freshly generated value; under the
freshness of the generated nonce, the stored nonce differs from the
nonce the verified challenge was built from, and the response timestamp
is the current time. -/
theorem claim_C3_verify_rotates (lib : EthLib) (s s' : Store) (ra : Option String)
    (sig fresh : String) (now : Nat) (a : String) (t : Option Nat) (user : User)
    (h : verifyRoute lib s ra (some sig) fresh now = (VerifyResult.ok a t, s'))
    (hfo : findOne s a = some user) (hfresh : fresh ≠ user.nonce) :
    findOne s' a = some (rotateNonce user (some sig) fresh now) ∧
    (rotateNonce user (some sig) fresh now).sessionSignature = some sig ∧
    (rotateNonce user (some sig) fresh now).lastSeen = some now ∧
    (rotateNonce user (some sig) fresh now).nonce = fresh ∧
    (rotateNonce user (some sig) fresh now).nonce ≠ user.nonce ∧
    t = some now := by
  obtain ⟨raw, sig0, user0, recovered, hra, hsg, hraw, hsig, hga, hfo0, hvm, hlow, ht, hs'⟩ :=
    verifyRoute_ok_inv h
  cases hsg
  rw [hfo] at hfo0
  cases hfo0
  refine ⟨?_, rfl, rfl, rfl, ?_, ht⟩
  · rw [hs']
    refine findOne_saveUser_self hfo ?_
    simpa [rotateNonce] using address_of_findOne hfo
  · simpa [rotateNonce] using hfresh

/-- Witness for C3: the demo verification succeeds and rotates as
stated. -/
theorem claim_C3_verify_rotates_witness :
    verifyRoute demoLib demoStore (some "0xAbC1") (some "sig1") "n2" 5
      = (VerifyResult.ok "0xAbC1" (some 5), demoRotatedStore) ∧
    findOne demoStore "0xAbC1" = some demoUser ∧
    ("n2" : String) ≠ demoUser.nonce ∧
    (findOne demoRotatedStore "0xAbC1" = some (rotateNonce demoUser (some "sig1") "n2" 5) ∧
      (rotateNonce demoUser (some "sig1") "n2" 5).sessionSignature = some "sig1" ∧
      (rotateNonce demoUser (some "sig1") "n2" 5).lastSeen = some 5 ∧
      (rotateNonce demoUser (some "sig1") "n2" 5).nonce = "n2" ∧
      (rotateNonce demoUser (some "sig1") "n2" 5).nonce ≠ demoUser.nonce ∧
      (some 5 : Option Nat) = some 5) := by
  have h : verifyRoute demoLib demoStore (some "0xAbC1") (some "sig1") "n2" 5
      = (VerifyResult.ok "0xAbC1" (some 5), demoRotatedStore) := by decide
  have hfo : findOne demoStore "0xAbC1" = some demoUser := by decide
  have hfresh : ("n2" : String) ≠ demoUser.nonce := by decide
  exact ⟨h, hfo, hfresh,
    claim_C3_verify_rotates demoLib demoStore demoRotatedStore (some "0xAbC1")
      "sig1" "n2" 5 "0xAbC1" (some 5) demoUser h hfo hfresh⟩

/-- C4: issuing a challenge twice in a row with no intervening
successful verification returns the same nonce (and message) both
times, and issuance for an existing identity returns its stored nonce
with the store unchanged. -/
theorem claim_C4_idempotent_issuance (lib : EthLib) (s : Store) (raw f1 f2 : String)
    (a n1 m1 : String) (s1 : Store) (a2 n2 m2 : String) (s2 : Store)
    (s0 : Store) (raw0 a0 f0 : String) (u : User)
    (h1 : nonceRoute lib s (some raw) f1 = (NonceResult.ok a n1 m1, s1))
    (h2 : nonceRoute lib s1 (some raw) f2 = (NonceResult.ok a2 n2 m2, s2))
    (hraw0 : raw0 ≠ "") (hga0 : lib.getAddress raw0 = some a0)
    (hu : findOne s0 a0 = some u) :
    (a2 = a ∧ n2 = n1 ∧ m2 = m1 ∧ s2 = s1) ∧
    nonceRoute lib s0 (some raw0) f0
      = (NonceResult.ok a0 u.nonce (buildChallenge a0 u.nonce), s0) := by
  constructor
  · obtain ⟨raw', hra, hraw, hga, hm, hcase⟩ := nonceRoute_ok_inv h1
    cases hra
    have hfind1 : ∃ u1, findOne s1 a = some u1 ∧ u1.nonce = n1 := by
      rcases hcase with ⟨u0, hfo, hn, hs⟩ | ⟨hfo, hn, hs⟩
      · exact ⟨u0, by rw [hs]; exact hfo, hn.symm⟩
      · refine ⟨newUser a f1, ?_, by simp [newUser, hn]⟩
        rw [hs]
        exact findOne_createUser_self hfo rfl
    obtain ⟨u1, hfo1, hn1⟩ := hfind1
    have hsecond := nonceRoute_existing hraw hga hfo1 f2
    rw [hsecond] at h2
    have hfst := congrArg Prod.fst h2
    have hsnd := congrArg Prod.snd h2
    simp only at hfst hsnd
    cases hfst
    exact ⟨rfl, hn1, by rw [hm, hn1], hsnd.symm⟩
  · exact nonceRoute_existing hraw0 hga0 hu f0

/-- Witness for C4: issuing twice starting from an empty store. -/
theorem claim_C4_idempotent_issuance_witness :
    nonceRoute demoLib [] (some "0xAbC1") "n1"
      = (NonceResult.ok "0xAbC1" "n1" (buildChallenge "0xAbC1" "n1"), demoStore) ∧
    nonceRoute demoLib demoStore (some "0xAbC1") "zz"
      = (NonceResult.ok "0xAbC1" "n1" (buildChallenge "0xAbC1" "n1"), demoStore) ∧
    ("0xabc1" : String) ≠ "" ∧
    demoLib.getAddress "0xabc1" = some "0xAbC1" ∧
    findOne demoStore "0xAbC1" = some demoUser ∧
    ((("0xAbC1" : String) = "0xAbC1" ∧ ("n1" : String) = "n1" ∧
        buildChallenge "0xAbC1" "n1" = buildChallenge "0xAbC1" "n1" ∧ demoStore = demoStore) ∧
      nonceRoute demoLib demoStore (some "0xabc1") "q"
        = (NonceResult.ok "0xAbC1" demoUser.nonce
            (buildChallenge "0xAbC1" demoUser.nonce), demoStore)) := by
  have h1 : nonceRoute demoLib [] (some "0xAbC1") "n1"
      = (NonceResult.ok "0xAbC1" "n1" (buildChallenge "0xAbC1" "n1"), demoStore) := by decide
  have h2 : nonceRoute demoLib demoStore (some "0xAbC1") "zz"
      = (NonceResult.ok "0xAbC1" "n1" (buildChallenge "0xAbC1" "n1"), demoStore) := by decide
  have hraw0 : ("0xabc1" : String) ≠ "" := by decide
  have hga0 : demoLib.getAddress "0xabc1" = some "0xAbC1" := by decide
  have hu : findOne demoStore "0xAbC1" = some demoUser := by decide
  exact ⟨h1, h2, hraw0, hga0, hu,
    claim_C4_idempotent_issuance demoLib [] "0xAbC1" "n1" "zz" "0xAbC1" "n1"
      (buildChallenge "0xAbC1" "n1") demoStore "0xAbC1" "n1"
      (buildChallenge "0xAbC1" "n1") demoStore demoStore "0xabc1" "0xAbC1" "q"
      demoUser h1 h2 hraw0 hga0 hu⟩

/-- C5: authorize for a well-formed address with no identity denies with
the not-registered reason, distinguishable (different result and
different error message) from the unauthorized denial issued when an
identity exists but neither check succeeds. -/
theorem claim_C5_not_registered (lib : EthLib) (s : Store) (raw sig a : String)
    (s' : Store) (raw' sig' a' : String) (u : User)
    (hraw : raw ≠ "") (hsig : sig ≠ "") (hga : lib.getAddress raw = some a)
    (hnone : findOne s a = none)
    (hraw' : raw' ≠ "") (hsig' : sig' ≠ "") (hga' : lib.getAddress raw' = some a')
    (hu : findOne s' a' = some u) (hp : primaryCheck u sig' = false)
    (hf : fallbackCheck lib u a' sig' = false) :
    requireAuth lib s (some raw) (some sig) = AuthResult.notRegistered ∧
    requireAuth lib s' (some raw') (some sig') = AuthResult.unauthorized ∧
    AuthResult.notRegistered ≠ AuthResult.unauthorized ∧
    authMessage AuthResult.notRegistered ≠ authMessage AuthResult.unauthorized := by
  refine ⟨?_, ?_, by decide, by decide⟩
  · simp [requireAuth, hraw, hsig, hga, hnone]
  · simp [requireAuth, hraw', hsig', hga', hu, hp, hf]

/-- Witness for C5: an unregistered address and a registered one with a
non-matching signature. -/
theorem claim_C5_not_registered_witness :
    ("0xAbC1" : String) ≠ "" ∧ ("sigQ" : String) ≠ "" ∧
    demoLib.getAddress "0xAbC1" = some "0xAbC1" ∧
    findOne [] "0xAbC1" = none ∧
    ("0xabc1" : String) ≠ "" ∧ ("bogus" : String) ≠ "" ∧
    demoLib.getAddress "0xabc1" = some "0xAbC1" ∧
    findOne demoStore "0xAbC1" = some demoUser ∧
    primaryCheck demoUser "bogus" = false ∧
    fallbackCheck demoLib demoUser "0xAbC1" "bogus" = false ∧
    (requireAuth demoLib [] (some "0xAbC1") (some "sigQ") = AuthResult.notRegistered ∧
      requireAuth demoLib demoStore (some "0xabc1") (some "bogus") = AuthResult.unauthorized ∧
      AuthResult.notRegistered ≠ AuthResult.unauthorized ∧
      authMessage AuthResult.notRegistered ≠ authMessage AuthResult.unauthorized) := by
  have p1 : ("0xAbC1" : String) ≠ "" := by decide
  have p2 : ("sigQ" : String) ≠ "" := by decide
  have p3 : demoLib.getAddress "0xAbC1" = some "0xAbC1" := by decide
  have p4 : findOne [] "0xAbC1" = none := by decide
  have p5 : ("0xabc1" : String) ≠ "" := by decide
  have p6 : ("bogus" : String) ≠ "" := by decide
  have p7 : demoLib.getAddress "0xabc1" = some "0xAbC1" := by decide
  have p8 : findOne demoStore "0xAbC1" = some demoUser := by decide
  have p9 : primaryCheck demoUser "bogus" = false := by decide
  have p10 : fallbackCheck demoLib demoUser "0xAbC1" "bogus" = false := by decide
  exact ⟨p1, p2, p3, p4, p5, p6, p7, p8, p9, p10,
    claim_C5_not_registered demoLib [] "0xAbC1" "sigQ" "0xAbC1" demoStore "0xabc1"
      "bogus" "0xAbC1" demoUser p1 p2 p3 p4 p5 p6 p7 p8 p9 p10⟩

/-- C6: for a registered address, an unparseable signature makes verify
fail with the malformed-signature outcome, distinguishable (different
result and different error message) from the unauthorized outcome of a
signature that recovers to a non-matching address; neither touches the
store. -/
theorem claim_C6_malformed_vs_mismatch (lib : EthLib) (s : Store) (raw a : String)
    (f : String) (n : Nat) (u : User) (sigM sigU r : String)
    (hraw : raw ≠ "") (hga : lib.getAddress raw = some a) (hu : findOne s a = some u)
    (hsigM : sigM ≠ "")
    (hM : lib.verifyMessage (buildChallenge a u.nonce) sigM = none)
    (hsigU : sigU ≠ "")
    (hU : lib.verifyMessage (buildChallenge a u.nonce) sigU = some r)
    (hr : lowerString r ≠ lowerString a) :
    verifyRoute lib s (some raw) (some sigM) f n = (VerifyResult.malformedSignature, s) ∧
    verifyRoute lib s (some raw) (some sigU) f n = (VerifyResult.unauthorized, s) ∧
    VerifyResult.malformedSignature ≠ VerifyResult.unauthorized ∧
    verifyError VerifyResult.malformedSignature ≠ verifyError VerifyResult.unauthorized := by
  refine ⟨?_, ?_, by decide, by decide⟩
  · simp [verifyRoute, hraw, hsigM, hga, hu, hM]
  · simp [verifyRoute, hraw, hsigU, hga, hu, hU, hr]

/-- Witness for C6: a signature recovery that throws versus one that
recovers a different address. -/
theorem claim_C6_malformed_vs_mismatch_witness :
    ("0xAbC1" : String) ≠ "" ∧
    demoLib.getAddress "0xAbC1" = some "0xAbC1" ∧
    findOne demoStore "0xAbC1" = some demoUser ∧
    ("bogus" : String) ≠ "" ∧
    demoLib.verifyMessage (buildChallenge "0xAbC1" demoUser.nonce) "bogus" = none ∧
    ("sigX" : String) ≠ "" ∧
    demoLib.verifyMessage (buildChallenge "0xAbC1" demoUser.nonce) "sigX" = some "0xFFFF" ∧
    lowerString "0xFFFF" ≠ lowerString "0xAbC1" ∧
    (verifyRoute demoLib demoStore (some "0xAbC1") (some "bogus") "n7" 3
        = (VerifyResult.malformedSignature, demoStore) ∧
      verifyRoute demoLib demoStore (some "0xAbC1") (some "sigX") "n7" 3
        = (VerifyResult.unauthorized, demoStore) ∧
      VerifyResult.malformedSignature ≠ VerifyResult.unauthorized ∧
      verifyError VerifyResult.malformedSignature ≠ verifyError VerifyResult.unauthorized) := by
  have p1 : ("0xAbC1" : String) ≠ "" := by decide
  have p2 : demoLib.getAddress "0xAbC1" = some "0xAbC1" := by decide
  have p3 : findOne demoStore "0xAbC1" = some demoUser := by decide
  have p4 : ("bogus" : String) ≠ "" := by decide
  have p5 : demoLib.verifyMessage (buildChallenge "0xAbC1" demoUser.nonce) "bogus"
      = none := by decide
  have p6 : ("sigX" : String) ≠ "" := by decide
  have p7 : demoLib.verifyMessage (buildChallenge "0xAbC1" demoUser.nonce) "sigX"
      = some "0xFFFF" := by decide
  have p8 : lowerString "0xFFFF" ≠ lowerString "0xAbC1" := by decide
  exact ⟨p1, p2, p3, p4, p5, p6, p7, p8,
    claim_C6_malformed_vs_mismatch demoLib demoStore "0xAbC1" "0xAbC1" "n7" 3 demoUser
      "bogus" "sigX" "0xFFFF" p1 p2 p3 p4 p5 p6 p7 p8⟩

/-- C7: two raw spellings of the same address (both validating to the
same checksummed form) resolve to the same identity and produce
identical results in challenge issuance, verification and
authorization; after recovery, address comparison is case-insensitive,
so a signature recovering to a case variant of the address is
accepted. -/
theorem claim_C7_case_insensitive (lib : EthLib) (s : Store) (raw1 raw2 a : String)
    (sg : Option String) (f : String) (now : Nat) (u : User) (sigr r : String)
    (hraw1 : raw1 ≠ "") (hraw2 : raw2 ≠ "")
    (h1 : lib.getAddress raw1 = some a) (h2 : lib.getAddress raw2 = some a)
    (hu : findOne s a = some u) (hsigr : sigr ≠ "")
    (hrec : lib.verifyMessage (buildChallenge a u.nonce) sigr = some r)
    (hcase : lowerString r = lowerString a) :
    nonceRoute lib s (some raw1) f = nonceRoute lib s (some raw2) f ∧
    verifyRoute lib s (some raw1) sg f now = verifyRoute lib s (some raw2) sg f now ∧
    requireAuth lib s (some raw1) sg = requireAuth lib s (some raw2) sg ∧
    requireAuth lib s (some raw1) (some sigr) = AuthResult.authorized a := by
  refine ⟨?_, ?_, ?_, ?_⟩
  · simp [nonceRoute, hraw1, hraw2, h1, h2]
  · cases sg with
    | none => rfl
    | some sig =>
      by_cases hsig : sig = ""
      · simp [verifyRoute, hraw1, hraw2, hsig]
      · simp [verifyRoute, hraw1, hraw2, hsig, h1, h2]
  · cases sg with
    | none => rfl
    | some sig =>
      by_cases hsig : sig = ""
      · simp [requireAuth, hraw1, hraw2, hsig]
      · simp [requireAuth, hraw1, hraw2, hsig, h1, h2]
  · have hf : fallbackCheck lib u a sigr = true := by
      simp [fallbackCheck, hrec, hcase]
    exact requireAuth_of_fallback hraw1 hsigr h1 hu hf

/-- Witness for C7: checksummed and all-lowercase spellings of the demo
address. -/
theorem claim_C7_case_insensitive_witness :
    ("0xAbC1" : String) ≠ "" ∧ ("0xabc1" : String) ≠ "" ∧
    demoLib.getAddress "0xAbC1" = some "0xAbC1" ∧
    demoLib.getAddress "0xabc1" = some "0xAbC1" ∧
    findOne demoStore "0xAbC1" = some demoUser ∧
    ("sig1" : String) ≠ "" ∧
    demoLib.verifyMessage (buildChallenge "0xAbC1" demoUser.nonce) "sig1" = some "0xAbC1" ∧
    lowerString "0xAbC1" = lowerString "0xAbC1" ∧
    (nonceRoute demoLib demoStore (some "0xAbC1") "nf"
        = nonceRoute demoLib demoStore (some "0xabc1") "nf" ∧
      verifyRoute demoLib demoStore (some "0xAbC1") (some "sigX") "nf" 3
        = verifyRoute demoLib demoStore (some "0xabc1") (some "sigX") "nf" 3 ∧
      requireAuth demoLib demoStore (some "0xAbC1") (some "sigX")
        = requireAuth demoLib demoStore (some "0xabc1") (some "sigX") ∧
      requireAuth demoLib demoStore (some "0xAbC1") (some "sig1")
        = AuthResult.authorized "0xAbC1") := by
  have p1 : ("0xAbC1" : String) ≠ "" := by decide
  have p2 : ("0xabc1" : String) ≠ "" := by decide
  have p3 : demoLib.getAddress "0xAbC1" = some "0xAbC1" := by decide
  have p4 : demoLib.getAddress "0xabc1" = some "0xAbC1" := by decide
  have p5 : findOne demoStore "0xAbC1" = some demoUser := by decide
  have p6 : ("sig1" : String) ≠ "" := by decide
  have p7 : demoLib.verifyMessage (buildChallenge "0xAbC1" demoUser.nonce) "sig1"
      = some "0xAbC1" := by decide
  have p8 : lowerString "0xAbC1" = lowerString "0xAbC1" := rfl
  exact ⟨p1, p2, p3, p4, p5, p6, p7, p8,
    claim_C7_case_insensitive demoLib demoStore "0xAbC1" "0xabc1" "0xAbC1"
      (some "sigX") "nf" 3 demoUser "sig1" "0xAbC1" p1 p2 p3 p4 p5 p6 p7 p8⟩

/-- C2: authorize performs no store mutation — handling an authorize
request leaves the store exactly as it was — and a signature that
verifies against the identity's current nonce is accepted through the
fallback on every request, for as long as no successful verification
rotates that nonce. -/
theorem claim_C2_gate_pure_fallback (lib : EthLib) (s : Store) (raw a sig : String)
    (u : User) (ra0 sg0 : Option String) (evs : List Event)
    (hraw : raw ≠ "") (hsig : sig ≠ "") (hga : lib.getAddress raw = some a)
    (hu : findOne s a = some u) (hf : fallbackCheck lib u a sig = true)
    (hevs : noVerifyFor lib s a evs = true) :
    stepStore lib s (Event.authReq ra0 sg0) = s ∧
    requireAuth lib s (some raw) (some sig) = AuthResult.authorized a ∧
    findOne (runStore lib s evs) a = some u ∧
    requireAuth lib (runStore lib s evs) (some raw) (some sig)
      = AuthResult.authorized a := by
  have hpres := runStore_preserves hu hevs
  exact ⟨rfl, requireAuth_of_fallback hraw hsig hga hu hf,
    hpres, requireAuth_of_fallback hraw hsig hga hpres hf⟩

/-- Witness for C2: the fallback keeps authorizing sig1 across requests
that do not rotate the nonce. -/
theorem claim_C2_gate_pure_fallback_witness :
    ("0xAbC1" : String) ≠ "" ∧ ("sig1" : String) ≠ "" ∧
    demoLib.getAddress "0xAbC1" = some "0xAbC1" ∧
    findOne demoStore "0xAbC1" = some demoUser ∧
    fallbackCheck demoLib demoUser "0xAbC1" "sig1" = true ∧
    noVerifyFor demoLib demoStore "0xAbC1"
      [Event.authReq (some "0xAbC1") (some "sig1"),
        Event.nonceReq (some "0xAbC1") "zz",
        Event.verifyReq (some "0xAbC1") (some "bogus") "n4" 9] = true ∧
    (stepStore demoLib demoStore (Event.authReq (some "0xAbC1") (some "sig1")) = demoStore ∧
      requireAuth demoLib demoStore (some "0xAbC1") (some "sig1")
        = AuthResult.authorized "0xAbC1" ∧
      findOne (runStore demoLib demoStore
          [Event.authReq (some "0xAbC1") (some "sig1"),
            Event.nonceReq (some "0xAbC1") "zz",
            Event.verifyReq (some "0xAbC1") (some "bogus") "n4" 9]) "0xAbC1"
        = some demoUser ∧
      requireAuth demoLib (runStore demoLib demoStore
          [Event.authReq (some "0xAbC1") (some "sig1"),
            Event.nonceReq (some "0xAbC1") "zz",
            Event.verifyReq (some "0xAbC1") (some "bogus") "n4" 9])
          (some "0xAbC1") (some "sig1") = AuthResult.authorized "0xAbC1") := by
  have p1 : ("0xAbC1" : String) ≠ "" := by decide
  have p2 : ("sig1" : String) ≠ "" := by decide
  have p3 : demoLib.getAddress "0xAbC1" = some "0xAbC1" := by decide
  have p4 : findOne demoStore "0xAbC1" = some demoUser := by decide
  have p5 : fallbackCheck demoLib demoUser "0xAbC1" "sig1" = true := by decide
  have p6 : noVerifyFor demoLib demoStore "0xAbC1"
      [Event.authReq (some "0xAbC1") (some "sig1"),
        Event.nonceReq (some "0xAbC1") "zz",
        Event.verifyReq (some "0xAbC1") (some "bogus") "n4" 9] = true := by decide
  exact ⟨p1, p2, p3, p4, p5, p6,
    claim_C2_gate_pure_fallback demoLib demoStore "0xAbC1" "0xAbC1" "sig1" demoUser
      (some "0xAbC1") (some "sig1")
      [Event.authReq (some "0xAbC1") (some "sig1"),
        Event.nonceReq (some "0xAbC1") "zz",
        Event.verifyReq (some "0xAbC1") (some "bogus") "n4" 9]
      p1 p2 p3 p4 p5 p6⟩

/-- C1: once a successful verification stores signature `S` for
address `a`, authorize with `S` succeeds through the primary exact-match
check, and keeps succeeding across any requests that contain no further
successful verification for `a`; as soon as a successful verification
stores a different signature, authorize with the old `S` no longer
passes the primary check, and stays rejected across further requests
that contain no successful verification for `a`. -/
theorem claim_C1_session_signature (lib : EthLib) (s0 : Store) (ra0 : Option String)
    (S f0 : String) (n0 : Nat) (a : String) (t0 : Option Nat) (s : Store) (raw : String)
    (evs : List Event) (s1 : Store) (ra : Option String) (f S' : String) (n : Nat)
    (t : Option Nat) (evs2 : List Event)
    (hok0 : verifyRoute lib s0 ra0 (some S) f0 n0 = (VerifyResult.ok a t0, s))
    (hraw : raw ≠ "") (hga : lib.getAddress raw = some a)
    (hevs : noVerifyFor lib s a evs = true)
    (hok : (verifyRoute lib s1 ra (some S') f n).1 = VerifyResult.ok a t)
    (hS' : S' ≠ S)
    (hevs2 : noVerifyFor lib (stepStore lib s1 (Event.verifyReq ra (some S') f n)) a evs2
        = true) :
    authorizedViaPrimary lib s (some raw) (some S) = true ∧
    requireAuth lib s (some raw) (some S) = AuthResult.authorized a ∧
    authorizedViaPrimary lib (runStore lib s evs) (some raw) (some S) = true ∧
    requireAuth lib (runStore lib s evs) (some raw) (some S) = AuthResult.authorized a ∧
    authorizedViaPrimary lib (stepStore lib s1 (Event.verifyReq ra (some S') f n))
        (some raw) (some S) = false ∧
    authorizedViaPrimary lib
        (runStore lib (stepStore lib s1 (Event.verifyReq ra (some S') f n)) evs2)
        (some raw) (some S) = false := by
  obtain ⟨raw0, sig0, user0, rec0, hra0, hsg0, hraw0, hsig0, hga0, hfo0, hvm0, hlow0,
    ht0, hs0⟩ := verifyRoute_ok_inv hok0
  cases hsg0
  have hrot0 : findOne s a = some (rotateNonce user0 (some S) f0 n0) := by
    rw [hs0]
    exact findOne_saveUser_self hfo0
      (by simpa [rotateNonce] using address_of_findOne hfo0)
  have hp : primaryCheck (rotateNonce user0 (some S) f0 n0) S = true :=
    primaryCheck_of_session rfl hsig0
  obtain ⟨hreq, hprim⟩ := requireAuth_of_primary hraw hsig0 hga hrot0 hp
  have hpres := runStore_preserves hrot0 hevs
  obtain ⟨hreq2, hprim2⟩ := requireAuth_of_primary hraw hsig0 hga hpres hp
  have hok' : verifyRoute lib s1 ra (some S') f n
      = (VerifyResult.ok a t, (verifyRoute lib s1 ra (some S') f n).2) := by
    have heta := (Prod.mk.eta (p := verifyRoute lib s1 ra (some S') f n)).symm
    rw [hok] at heta
    exact heta
  obtain ⟨raw1, sig1, user1, rec1, hra1, hsg1, hraw1, hsig1, hga1, hfo1, hvm1, hlow1,
    ht1, hs1'⟩ := verifyRoute_ok_inv hok'
  cases hsg1
  have hstep : stepStore lib s1 (Event.verifyReq ra (some S') f n)
      = (verifyRoute lib s1 ra (some S') f n).2 := rfl
  have hrot1 : findOne (stepStore lib s1 (Event.verifyReq ra (some S') f n)) a
      = some (rotateNonce user1 (some S') f n) := by
    rw [hstep, hs1']
    exact findOne_saveUser_self hfo1
      (by simpa [rotateNonce] using address_of_findOne hfo1)
  have hpf : primaryCheck (rotateNonce user1 (some S') f n) S = false :=
    primaryCheck_ne rfl hS'
  have h5 := authorizedViaPrimary_false hga hrot1 hpf
  have hpres2 := runStore_preserves hrot1 hevs2
  have h6 := authorizedViaPrimary_false hga hpres2 hpf
  exact ⟨hprim, hreq, hprim2, hreq2, h5, h6⟩

/-- Witness for C1: sig1 is accepted by the primary check after the
first demo verification and rejected once sig2 replaces it. -/
theorem claim_C1_session_signature_witness :
    verifyRoute demoLib demoStore (some "0xAbC1") (some "sig1") "n2" 5
      = (VerifyResult.ok "0xAbC1" (some 5), demoRotatedStore) ∧
    ("0xabc1" : String) ≠ "" ∧
    demoLib.getAddress "0xabc1" = some "0xAbC1" ∧
    noVerifyFor demoLib demoRotatedStore "0xAbC1"
      [Event.authReq (some "0xabc1") (some "sig1"),
        Event.nonceReq (some "0xAbC1") "zz",
        Event.verifyReq (some "0xAbC1") (some "bogus") "n4" 9] = true ∧
    (verifyRoute demoLib demoRotatedStore (some "0xAbC1") (some "sig2") "n3" 7).1
      = VerifyResult.ok "0xAbC1" (some 7) ∧
    ("sig2" : String) ≠ "sig1" ∧
    noVerifyFor demoLib
      (stepStore demoLib demoRotatedStore
        (Event.verifyReq (some "0xAbC1") (some "sig2") "n3" 7)) "0xAbC1"
      [Event.authReq (some "0xabc1") (some "sig1")] = true ∧
    (authorizedViaPrimary demoLib demoRotatedStore (some "0xabc1") (some "sig1") = true ∧
      requireAuth demoLib demoRotatedStore (some "0xabc1") (some "sig1")
        = AuthResult.authorized "0xAbC1" ∧
      authorizedViaPrimary demoLib
        (runStore demoLib demoRotatedStore
          [Event.authReq (some "0xabc1") (some "sig1"),
            Event.nonceReq (some "0xAbC1") "zz",
            Event.verifyReq (some "0xAbC1") (some "bogus") "n4" 9])
        (some "0xabc1") (some "sig1") = true ∧
      requireAuth demoLib
        (runStore demoLib demoRotatedStore
          [Event.authReq (some "0xabc1") (some "sig1"),
            Event.nonceReq (some "0xAbC1") "zz",
            Event.verifyReq (some "0xAbC1") (some "bogus") "n4" 9])
        (some "0xabc1") (some "sig1") = AuthResult.authorized "0xAbC1" ∧
      authorizedViaPrimary demoLib
        (stepStore demoLib demoRotatedStore
          (Event.verifyReq (some "0xAbC1") (some "sig2") "n3" 7))
        (some "0xabc1") (some "sig1") = false ∧
      authorizedViaPrimary demoLib
        (runStore demoLib
          (stepStore demoLib demoRotatedStore
            (Event.verifyReq (some "0xAbC1") (some "sig2") "n3" 7))
          [Event.authReq (some "0xabc1") (some "sig1")])
        (some "0xabc1") (some "sig1") = false) := by
  have p1 : verifyRoute demoLib demoStore (some "0xAbC1") (some "sig1") "n2" 5
      = (VerifyResult.ok "0xAbC1" (some 5), demoRotatedStore) := by decide
  have p2 : ("0xabc1" : String) ≠ "" := by decide
  have p3 : demoLib.getAddress "0xabc1" = some "0xAbC1" := by decide
  have p4 : noVerifyFor demoLib demoRotatedStore "0xAbC1"
      [Event.authReq (some "0xabc1") (some "sig1"),
        Event.nonceReq (some "0xAbC1") "zz",
        Event.verifyReq (some "0xAbC1") (some "bogus") "n4" 9] = true := by decide
  have p5 : (verifyRoute demoLib demoRotatedStore (some "0xAbC1") (some "sig2") "n3" 7).1
      = VerifyResult.ok "0xAbC1" (some 7) := by decide
  have p6 : ("sig2" : String) ≠ "sig1" := by decide
  have p7 : noVerifyFor demoLib
      (stepStore demoLib demoRotatedStore
        (Event.verifyReq (some "0xAbC1") (some "sig2") "n3" 7)) "0xAbC1"
      [Event.authReq (some "0xabc1") (some "sig1")] = true := by decide
  exact ⟨p1, p2, p3, p4, p5, p6, p7,
    claim_C1_session_signature demoLib demoStore (some "0xAbC1") "sig1" "n2" 5 "0xAbC1"
      (some 5) demoRotatedStore "0xabc1"
      [Event.authReq (some "0xabc1") (some "sig1"),
        Event.nonceReq (some "0xAbC1") "zz",
        Event.verifyReq (some "0xAbC1") (some "bogus") "n4" 9]
      demoRotatedStore (some "0xAbC1") "n3" "sig2" 7 (some 7)
      [Event.authReq (some "0xabc1") (some "sig1")]
      p1 p2 p3 p4 p5 p6 p7⟩

/-- C8 counterexample: the empty string does not conform to the hex
address format, yet challenge issuance fails with the missing-address
error, not with InvalidAddress. -/
theorem claim_C8_counterexample :
    demoLib.getAddress "" = none ∧
    nonceRoute demoLib [] (some "") "n1" = (NonceResult.missingAddress, []) ∧
    NonceResult.missingAddress ≠ NonceResult.invalidAddress := by
  exact ⟨by decide, by decide, by decide⟩

/-- C8 (amended): every NONEMPTY input string that fails address
validation makes issuance return InvalidAddress with the store
unchanged; an absent or empty address instead fails with the
missing-address error, likewise with the store unchanged. -/
theorem claim_C8_invalid_address_no_side_effect (lib : EthLib) (s : Store) (raw f : String)
    (hraw : raw ≠ "") (hga : lib.getAddress raw = none) :
    nonceRoute lib s (some raw) f = (NonceResult.invalidAddress, s) ∧
    nonceRoute lib s (some "") f = (NonceResult.missingAddress, s) ∧
    nonceRoute lib s none f = (NonceResult.missingAddress, s) := by
  exact ⟨by simp [nonceRoute, hraw, hga], by simp [nonceRoute], rfl⟩

/-- Witness for C8 (amended): a nonempty string rejected by address
validation. -/
theorem claim_C8_invalid_address_no_side_effect_witness :
    ("zzz" : String) ≠ "" ∧
    demoLib.getAddress "zzz" = none ∧
    (nonceRoute demoLib demoStore (some "zzz") "n1"
        = (NonceResult.invalidAddress, demoStore) ∧
      nonceRoute demoLib demoStore (some "") "n1"
        = (NonceResult.missingAddress, demoStore) ∧
      nonceRoute demoLib demoStore none "n1"
        = (NonceResult.missingAddress, demoStore)) := by
  have p1 : ("zzz" : String) ≠ "" := by decide
  have p2 : demoLib.getAddress "zzz" = none := by decide
  exact ⟨p1, p2,
    claim_C8_invalid_address_no_side_effect demoLib demoStore "zzz" "n1" p1 p2⟩

/-- C9 counterexample: in a development build a 500 response carries the
stack trace, and the message field echoes the raw data-layer error
message. -/
theorem claim_C9_counterexample :
    (errorHandler "development" demoError).2.stack = some demoError.stack ∧
    (errorHandler "development" demoError).2.stack ≠ none ∧
    (errorHandler "development" demoError).2.error
      = "connect ECONNREFUSED 127.0.0.1:27017" := by
  exact ⟨by decide, by decide, by decide⟩

/-- C9 (amended): the response body is a success flag and a message
string; a stack trace is attached only in development builds on 5xx
statuses — outside development, or when the final status is below 500,
the response carries no stack. -/
theorem claim_C9_no_stack_outside_development (env : String) (err err2 : JsError)
    (henv : env ≠ "development") (hlt : (errorHandler "development" err2).1 < 500) :
    (errorHandler env err).2.stack = none ∧
    (errorHandler env err).2.success = false ∧
    (errorHandler "development" err2).2.stack = none ∧
    (errorHandler "development" err2).2.success = false := by
  refine ⟨?_, rfl, ?_, rfl⟩
  · simp [errorHandler, henv]
  · have h3 : ¬ 500 ≤ (errorHandler "development" err2).1 := Nat.not_le.mpr hlt
    simp only [errorHandler] at h3 ⊢
    simp at h3
    simp [h3]

/-- Witness for C9 (amended): a production 500 and a development 400. -/
theorem claim_C9_no_stack_outside_development_witness :
    ("production" : String) ≠ "development" ∧
    (errorHandler "development" demoError400).1 < 500 ∧
    ((errorHandler "production" demoError).2.stack = none ∧
      (errorHandler "production" demoError).2.success = false ∧
      (errorHandler "development" demoError400).2.stack = none ∧
      (errorHandler "development" demoError400).2.success = false) := by
  have p1 : ("production" : String) ≠ "development" := by decide
  have p2 : (errorHandler "development" demoError400).1 < 500 := by decide
  exact ⟨p1, p2,
    claim_C9_no_stack_outside_development "production" demoError demoError400 p1 p2⟩

end SecureDocs
